import Mathlib

/-!
Verification development for the TaskMaster API server (`src/server.js`).

The server is an Express application over a Mongoose `Task` model.  We give a
shallow embedding: the persisted task collection is a list of task records,
the two in-process counters are natural numbers, and each HTTP request is a
value of an inductive `Request` type.  `handleRequest` models one request's
journey through the counting middleware and the route handlers, returning the
response together with the successor server state.

Library behaviour that the handlers rely on is embedded from the documented
semantics of Mongoose as used by `server.js`:
  * `Task.create` applies the schema setters (`trim: true`) and runs the
    validators (`required: true`), rejecting a title that is empty after
    trimming;
  * `Task.findByIdAndUpdate(id, body, ⟨new: true⟩)` first casts `id` to an
    ObjectId (throwing a `CastError` on malformed input), applies the patch
    with setters but — by Mongoose default — without running validators, and
    returns the updated document;
  * `Task.findByIdAndDelete(id)` likewise casts the id and removes the
    matched document;
  * `Task.find().sort(⟨createdAt: -1⟩)` returns the documents ordered by
    `createdAt` descending.
Floating-point rendering (the fractional uptime and the heap-usage figure in
`/metrics`) is not modelled bit-for-bit: those two interpolated values enter
`metricsText` as pre-rendered strings.
-/

namespace TaskMaster

/-- A persisted task document, following the schema `taskSchema` in
`server.js`: a storage-assigned identifier, a title, a completion flag and a
creation timestamp (milliseconds). -/
structure Task where
  id : String
  title : String
  completed : Bool
  createdAt : Nat
deriving DecidableEq, Repr

/-- The persisted task collection. -/
abbrev Store := List Task

/-- Hexadecimal digit test, used by ObjectId validity. -/
def isHexDigit (c : Char) : Bool :=
  c.isDigit || (('a' ≤ c) && (c ≤ 'f')) || (('A' ≤ c) && (c ≤ 'F'))

/-- Validity of a MongoDB ObjectId in its canonical textual form: exactly 24
hexadecimal characters.  A route parameter that fails this test makes the
Mongoose cast of `req.params.id` throw a `CastError`. -/
def isValidObjectId (s : String) : Bool :=
  s.length == 24 && s.data.all isHexDigit

/-- The message of the `CastError` Mongoose throws when `id` cannot be cast
to an ObjectId for the `Task` model. -/
def castErrorMessage (id : String) : String :=
  "Cast to ObjectId failed for value \"" ++ id ++
    "\" (type string) at path \"_id\" for model \"Task\""

/-- The `trim: true` setter (JavaScript's `String.prototype.trim`): remove
leading and trailing whitespace, with `Char.isWhitespace` standing for the
JavaScript whitespace class. -/
def trimString (s : String) : String :=
  ⟨((s.data.dropWhile Char.isWhitespace).reverse.dropWhile Char.isWhitespace).reverse⟩

/-- The message of the `ValidationError` Mongoose throws when the required
`title` path is empty after trimming. -/
def titleRequiredMessage : String :=
  "Task validation failed: title: Path `title` is required."

/-- `Task.create` on the `Task` model with body `title := t`: the
`trim: true` setter trims the title, then the `required: true` validator
rejects an empty result; otherwise a new document is persisted with
`completed := false` and `createdAt` defaulted to the current time.
`genId` is the storage-assigned identifier. -/
def taskCreate (now : Nat) (genId : String) (t : String) : Except String Task :=
  let trimmed := trimString t
  if trimmed = "" then
    Except.error titleRequiredMessage
  else
    Except.ok { id := genId, title := trimmed, completed := false, createdAt := now }

/-- The update body of a `PUT /api/tasks/:id` request, as the pick of the
schema paths present in `req.body`. -/
structure Patch where
  title : Option String := none
  completed : Option Bool := none
  createdAt : Option Nat := none
deriving DecidableEq, Repr

/-- Application of an update body to a stored document, as
`findByIdAndUpdate` performs it: each present path is overwritten, setters
run (so the title is trimmed) but validators do not (Mongoose default for
update queries), so an empty title is accepted. -/
def applyPatch (p : Patch) (t : Task) : Task :=
  { id := t.id
    title := match p.title with
      | some v => trimString v
      | none => t.title
    completed := p.completed.getD t.completed
    createdAt := p.createdAt.getD t.createdAt }

/-- The first document with the given id, as MongoDB's `findById` family
locates it (`_id` is the primary key, so at most one exists). -/
def findById : Store → String → Option Task
  | [], _ => none
  | t :: rest, i => if t.id == i then some t else findById rest i

/-- Overwrite the (first) document with the given id by the patched version;
the collection is otherwise unchanged. -/
def updateById (id : String) (p : Patch) : Store → Store
  | [] => []
  | t :: rest =>
      if t.id == id then applyPatch p t :: rest
      else t :: updateById id p rest

/-- Remove the (first) document with the given id. -/
def deleteById (id : String) : Store → Store
  | [] => []
  | t :: rest => if t.id == id then rest else t :: deleteById id rest

/-- The ordering `⟨createdAt: -1⟩` of the list route: `a` precedes `b` when
`a` was created no earlier than `b`. -/
def createdAtGE (a b : Task) : Prop :=
  b.createdAt ≤ a.createdAt

instance : DecidableRel createdAtGE :=
  fun a b => Nat.decLe b.createdAt a.createdAt

instance : IsTotal Task createdAtGE :=
  ⟨fun a b => Nat.le_total b.createdAt a.createdAt⟩

instance : IsTrans Task createdAtGE :=
  ⟨fun _ _ _ hab hbc => Nat.le_trans hbc hab⟩

/-- `Task.find().sort(⟨createdAt: -1⟩)`: the collection ordered by
`createdAt` descending. -/
def sortByCreatedAtDesc (l : Store) : Store :=
  List.insertionSort createdAtGE l

/-- The response body of `GET /health`. -/
structure HealthInfo where
  status : String
  version : String
  uptime : Nat
  mongo : String
  hostname : String
  environment : String
deriving DecidableEq, Repr

/-- The JSON (or, for `/metrics`, plain-text) bodies the server responds
with. -/
inductive Body where
  | taskBody : Task → Body
  | taskList : List Task → Nat → Body
  | err : String → Body
  | msg : String → Body
  | healthBody : HealthInfo → Body
  | text : String → Body
deriving DecidableEq, Repr

/-- An HTTP response: status code and body. -/
structure Response where
  status : Nat
  body : Body
deriving DecidableEq, Repr

/-- The mutable in-process server state: the persisted collection and the two
metrics counters. -/
structure ServerState where
  store : Store
  requestCount : Nat
  errorCount : Nat
deriving DecidableEq, Repr

/-- Per-request environment: the current time, the identifier storage would
assign to a newly created document, the Mongoose connection `readyState`, the
configuration-derived health fields, the process start time, and the two
pre-rendered fractional figures of `/metrics`. -/
structure Env where
  now : Nat
  genId : String
  readyState : Nat
  version : String
  hostname : String
  environment : String
  startTime : Nat
  uptimeStr : String
  heapUsedStr : String
deriving Repr

/-- A parsed incoming request, one constructor per route of the router plus
`other` for unmatched routes. -/
inductive Request where
  | getHealth : Request
  | getMetrics : Request
  | getTasks : Request
  | postTask : Option String → Request
  | putTask : String → Patch → Request
  | deleteTask : String → Request
  | other : Request
deriving DecidableEq, Repr

/-- JavaScript truthiness of `req.body.title` for the `!req.body.title`
check: an absent title and the empty string are falsy. -/
def titleTruthy : Option String → Bool
  | none => false
  | some t => t != ""

/-- The `GET /health` report built by the handler. -/
def healthReport (env : Env) : HealthInfo :=
  { status := "healthy"
    version := env.version
    uptime := (env.now - env.startTime) / 1000
    mongo := if env.readyState == 1 then "connected" else "disconnected"
    hostname := env.hostname
    environment := env.environment }

/-- The plain-text body of `GET /metrics`, concatenated exactly as the
handler's template literal builds it; the two counters are interpolated with
decimal rendering, the uptime and heap figures arrive pre-rendered. -/
def metricsText (requestCount errorCount : Nat) (uptimeStr heapUsedStr : String) : String :=
  "# HELP http_requests_total Total HTTP requests\n" ++
  "# TYPE http_requests_total counter\n" ++
  "http_requests_total " ++ Nat.repr requestCount ++ "\n\n" ++
  "# HELP http_errors_total Total HTTP errors\n" ++
  "# TYPE http_errors_total counter\n" ++
  "http_errors_total " ++ Nat.repr errorCount ++ "\n\n" ++
  "# HELP app_uptime_seconds Application uptime\n" ++
  "# TYPE app_uptime_seconds gauge\n" ++
  "app_uptime_seconds " ++ uptimeStr ++ "\n\n" ++
  "# HELP nodejs_process_memory_bytes Process memory usage\n" ++
  "# TYPE nodejs_process_memory_bytes gauge\n" ++
  "nodejs_process_memory_bytes " ++ heapUsedStr ++ "\n"

/-- Route dispatch: each arm carries over the matched handler in
`server.js`, acting on the state reached after the counting middleware. -/
def dispatch (env : Env) (s : ServerState) : Request → Response × ServerState
  | Request.getHealth =>
      (⟨200, Body.healthBody (healthReport env)⟩, s)
  | Request.getMetrics =>
      (⟨200, Body.text (metricsText s.requestCount s.errorCount env.uptimeStr env.heapUsedStr)⟩, s)
  | Request.getTasks =>
      let tasks := sortByCreatedAtDesc s.store
      (⟨200, Body.taskList tasks tasks.length⟩, s)
  | Request.postTask title =>
      if titleTruthy title then
        match taskCreate env.now env.genId (title.getD "") with
        | Except.ok t => (⟨201, Body.taskBody t⟩, { s with store := s.store ++ [t] })
        | Except.error m => (⟨500, Body.err m⟩, { s with errorCount := s.errorCount + 1 })
      else
        (⟨400, Body.err "Title is required"⟩, s)
  | Request.putTask id p =>
      if isValidObjectId id then
        match findById s.store id with
        | none => (⟨404, Body.err "Task not found"⟩, s)
        | some t =>
            (⟨200, Body.taskBody (applyPatch p t)⟩, { s with store := updateById id p s.store })
      else
        (⟨500, Body.err (castErrorMessage id)⟩, { s with errorCount := s.errorCount + 1 })
  | Request.deleteTask id =>
      if isValidObjectId id then
        match findById s.store id with
        | none => (⟨404, Body.err "Task not found"⟩, s)
        | some _ =>
            (⟨200, Body.msg "Task deleted"⟩, { s with store := deleteById id s.store })
      else
        (⟨500, Body.err (castErrorMessage id)⟩, { s with errorCount := s.errorCount + 1 })
  | Request.other =>
      (⟨404, Body.err "Route not found"⟩, s)

/-- One request through the application: the counting middleware increments
`requestCount`, then the router dispatches to the matched handler. -/
def handleRequest (env : Env) (s : ServerState) (r : Request) : Response × ServerState :=
  dispatch env { s with requestCount := s.requestCount + 1 } r

/-- The non-empty-title invariant of the persisted collection, as an
executable predicate. -/
def storeTitlesNonEmpty (l : Store) : Bool :=
  l.all (fun t => t.title != "")

/-- A request does not plant a blank title through the unvalidated update
path: for `PUT` bodies, any present `title` is non-empty after trimming. -/
def patchKeepsTitle : Request → Prop
  | Request.putTask _ p => ∀ v, p.title = some v → trimString v ≠ ""
  | _ => True

/-- The generic exposition block of one metric: a HELP comment, a TYPE
comment, and the sample line, all carrying the metric's name. -/
def renderMetric (name help mtype value : String) : String :=
  "# HELP " ++ name ++ " " ++ help ++ "\n" ++
  "# TYPE " ++ name ++ " " ++ mtype ++ "\n" ++
  name ++ " " ++ value ++ "\n"

/-- Split a character list at every occurrence of the separator. -/
def splitOnChar (sep : Char) : List Char → List (List Char)
  | [] => [[]]
  | c :: rest =>
      let r := splitOnChar sep rest
      if c == sep then [] :: r
      else
        match r with
        | [] => [[c]]
        | w :: ws => (c :: w) :: ws

/-- The metric names appearing on sample lines of an exposition text: the
first word of every non-empty line that is not a comment line. -/
def metricNames (s : String) : List String :=
  ((splitOnChar '\n' s.data).filter
      (fun l => !(l.isEmpty) && !(l.headD ' ' == '#'))).map
    (fun l => ⟨(splitOnChar ' ' l).headD []⟩)

/-! ### Concrete fixtures used by witnesses and counterexamples -/

/-- A canonical valid ObjectId. -/
def oid1 : String := "507f1f77bcf86cd799439011"

/-- A second valid ObjectId, distinct from `oid1`. -/
def oid2 : String := "507f1f77bcf86cd799439012"

/-- A concrete request environment with a connected database. -/
def env1 : Env :=
  { now := 1000, genId := oid1, readyState := 1, version := "1.0.0",
    hostname := "local", environment := "development", startTime := 0,
    uptimeStr := "1.5", heapUsedStr := "12345" }

/-- A concrete request environment with a disconnected database. -/
def env2 : Env :=
  { env1 with readyState := 0 }

/-- The pristine server state: empty collection, zeroed counters. -/
def st0 : ServerState :=
  { store := [], requestCount := 0, errorCount := 0 }

/-- A concrete stored task. -/
def task1 : Task :=
  { id := oid1, title := "Buy milk", completed := false, createdAt := 500 }

/-- A server state holding exactly `task1`. -/
def st1 : ServerState :=
  { store := [task1], requestCount := 3, errorCount := 1 }

/-! ### Claim theorems -/

/-- Claim C3: a `POST /api/tasks` whose body title is absent or empty (i.e.
falsy) is answered with status 400 and the body `error: Title is required`,
and the persisted collection is unchanged. -/
theorem post_missing_title_rejected (env : Env) (s : ServerState) (title : Option String)
    (h : titleTruthy title = false) :
    (handleRequest env s (Request.postTask title)).1 =
      ⟨400, Body.err "Title is required"⟩ ∧
    (handleRequest env s (Request.postTask title)).2.store = s.store := by
  simp [handleRequest, dispatch, h]

/-- Witness for C3 at a concrete absent title and the pristine state. -/
theorem post_missing_title_rejected_witness :
    (handleRequest env1 st0 (Request.postTask none)).1 =
      ⟨400, Body.err "Title is required"⟩ ∧
    (handleRequest env1 st0 (Request.postTask none)).2.store = st0.store :=
  post_missing_title_rejected env1 st0 none rfl

/-- Claim C8: `GET /health` always answers 200 with status field
`healthy`, for every connection `readyState`; its `mongo` field is
`connected` exactly when the connection is up (`readyState = 1`) and
`disconnected` otherwise. -/
theorem health_always_healthy (env : Env) (s : ServerState) :
    (handleRequest env s Request.getHealth).1 =
      ⟨200, Body.healthBody (healthReport env)⟩ ∧
    (healthReport env).status = "healthy" ∧
    ((healthReport env).mongo = "connected" ↔ env.readyState = 1) ∧
    (env.readyState ≠ 1 → (healthReport env).mongo = "disconnected") := by
  refine ⟨rfl, rfl, ?_, ?_⟩ <;> by_cases h : env.readyState = 1 <;>
    simp [healthReport, h]

/-- Witness for C8 at the disconnected environment: the response is 200 and
the `mongo` field reads `disconnected`. -/
theorem health_always_healthy_witness :
    (handleRequest env2 st0 Request.getHealth).1 =
      ⟨200, Body.healthBody (healthReport env2)⟩ ∧
    (healthReport env2).mongo = "disconnected" :=
  ⟨(health_always_healthy env2 st0).1,
    (health_always_healthy env2 st0).2.2.2 (by decide)⟩

/-- Claim C10: a `PUT` or `DELETE` on `/api/tasks/:id` whose `:id` is not a
syntactically valid ObjectId is answered with status 500 carrying the cast
error's message — not with 404 — and the persisted collection is
unchanged. -/
theorem invalid_id_cast_error (env : Env) (s : ServerState) (id : String) (p : Patch)
    (h : isValidObjectId id = false) :
    ((handleRequest env s (Request.putTask id p)).1 =
        ⟨500, Body.err (castErrorMessage id)⟩ ∧
      (handleRequest env s (Request.putTask id p)).1.status ≠ 404 ∧
      (handleRequest env s (Request.putTask id p)).2.store = s.store) ∧
    ((handleRequest env s (Request.deleteTask id)).1 =
        ⟨500, Body.err (castErrorMessage id)⟩ ∧
      (handleRequest env s (Request.deleteTask id)).1.status ≠ 404 ∧
      (handleRequest env s (Request.deleteTask id)).2.store = s.store) := by
  simp [handleRequest, dispatch, h]

/-- Witness for C10 at the malformed id `abc` and the one-task state. -/
theorem invalid_id_cast_error_witness :
    ((handleRequest env1 st1 (Request.putTask "abc" { completed := some true })).1 =
        ⟨500, Body.err (castErrorMessage "abc")⟩ ∧
      (handleRequest env1 st1 (Request.putTask "abc" { completed := some true })).1.status ≠ 404 ∧
      (handleRequest env1 st1 (Request.putTask "abc" { completed := some true })).2.store = st1.store) ∧
    ((handleRequest env1 st1 (Request.deleteTask "abc")).1 =
        ⟨500, Body.err (castErrorMessage "abc")⟩ ∧
      (handleRequest env1 st1 (Request.deleteTask "abc")).1.status ≠ 404 ∧
      (handleRequest env1 st1 (Request.deleteTask "abc")).2.store = st1.store) :=
  invalid_id_cast_error env1 st1 "abc" { completed := some true } (by decide)

/-- Counterexample to C7 as stated: posting the valid non-empty title
` Buy milk ` yields 201, but the created record carries the trimmed title
`Buy milk`, which differs from the given title. -/
theorem post_returns_trimmed_title_cex :
    (handleRequest env1 st0 (Request.postTask (some " Buy milk "))).1.status = 201 ∧
    (handleRequest env1 st0 (Request.postTask (some " Buy milk "))).1.body =
      Body.taskBody { id := oid1, title := "Buy milk", completed := false, createdAt := 1000 } ∧
    ("Buy milk" : String) ≠ " Buy milk " := by
  refine ⟨rfl, rfl, by decide⟩

/-- Claim C7 (amended): a `POST /api/tasks` whose body title is non-blank
(non-empty after trimming) is answered with status 201 and the created
record — storage-assigned id, the given title trimmed of surrounding
whitespace, `completed = false`, `createdAt` the creation time — and that
record is appended to the persisted collection. -/
theorem post_valid_title_creates (env : Env) (s : ServerState) (t : String)
    (h : trimString t ≠ "") :
    (handleRequest env s (Request.postTask (some t))).1 =
      ⟨201, Body.taskBody { id := env.genId, title := trimString t, completed := false, createdAt := env.now }⟩ ∧
    (handleRequest env s (Request.postTask (some t))).2.store =
      s.store ++ [{ id := env.genId, title := trimString t, completed := false, createdAt := env.now }] := by
  have ht : t ≠ "" := by
    intro h0
    rw [h0] at h
    exact h rfl
  simp [handleRequest, dispatch, titleTruthy, taskCreate, ht, h]

/-- Witness for C7 (amended) at the title `Buy milk` and the pristine
state. -/
theorem post_valid_title_creates_witness :
    (handleRequest env1 st0 (Request.postTask (some "Buy milk"))).1 =
      ⟨201, Body.taskBody { id := env1.genId, title := trimString "Buy milk", completed := false, createdAt := env1.now }⟩ ∧
    (handleRequest env1 st0 (Request.postTask (some "Buy milk"))).2.store =
      st0.store ++ [{ id := env1.genId, title := trimString "Buy milk", completed := false, createdAt := env1.now }] :=
  post_valid_title_creates env1 st0 "Buy milk" (by decide)

/-- The Boolean invariant, unfolded to its propositional reading. -/
theorem storeTitlesNonEmpty_iff (l : Store) :
    storeTitlesNonEmpty l = true ↔ ∀ t ∈ l, t.title ≠ "" := by
  simp [storeTitlesNonEmpty]

/-- Every member of `updateById id p l` is either a member of `l` or the
patched version of one. -/
theorem mem_updateById (id : String) (p : Patch) :
    ∀ l : Store, ∀ u ∈ updateById id p l, u ∈ l ∨ ∃ t ∈ l, u = applyPatch p t := by
  intro l
  induction l with
  | nil => intro u hu; simp [updateById] at hu
  | cons t rest ih =>
      intro u hu
      cases hid : (t.id == id) with
      | true =>
          simp [updateById, hid] at hu
          rcases hu with hu | hu
          · exact Or.inr ⟨t, List.mem_cons_self t rest, hu⟩
          · exact Or.inl (List.mem_cons_of_mem t hu)
      | false =>
          simp [updateById, hid] at hu
          rcases hu with hu | hu
          · exact Or.inl (hu ▸ List.mem_cons_self t rest)
          · rcases ih u hu with h | ⟨v, hv, he⟩
            · exact Or.inl (List.mem_cons_of_mem t h)
            · exact Or.inr ⟨v, List.mem_cons_of_mem t hv, he⟩

/-- Every member of `deleteById id l` is a member of `l`. -/
theorem mem_deleteById (id : String) :
    ∀ l : Store, ∀ u ∈ deleteById id l, u ∈ l := by
  intro l
  induction l with
  | nil => intro u hu; simp [deleteById] at hu
  | cons t rest ih =>
      intro u hu
      cases hid : (t.id == id) with
      | true =>
          simp [deleteById, hid] at hu
          exact List.mem_cons_of_mem t hu
      | false =>
          simp [deleteById, hid] at hu
          rcases hu with hu | hu
          · exact hu ▸ List.mem_cons_self t rest
          · exact List.mem_cons_of_mem t (ih u hu)

/-- Updating with a patch whose title (when present) is non-blank preserves
the non-empty-title invariant. -/
theorem storeTitlesNonEmpty_updateById (id : String) (p : Patch)
    (hp : ∀ v, p.title = some v → trimString v ≠ "") (l : Store)
    (hl : storeTitlesNonEmpty l = true) :
    storeTitlesNonEmpty (updateById id p l) = true := by
  rw [storeTitlesNonEmpty_iff] at hl ⊢
  intro u hu
  rcases mem_updateById id p l u hu with h | ⟨t, ht, he⟩
  · exact hl u h
  · subst he
    cases hpt : p.title with
    | none => simpa [applyPatch, hpt] using hl t ht
    | some v => simpa [applyPatch, hpt] using hp v hpt

/-- Deleting a document preserves the non-empty-title invariant. -/
theorem storeTitlesNonEmpty_deleteById (id : String) (l : Store)
    (hl : storeTitlesNonEmpty l = true) :
    storeTitlesNonEmpty (deleteById id l) = true := by
  rw [storeTitlesNonEmpty_iff] at hl ⊢
  intro u hu
  exact hl u (mem_deleteById id l u hu)

/-- Counterexample to C1 as stated: the one-task state satisfies the
non-empty-title invariant, yet a `PUT` whose body sets `title` to the empty
string leaves the persisted task with an empty title, because
`findByIdAndUpdate` does not run the schema validators. -/
theorem put_empty_title_breaks_invariant_cex :
    storeTitlesNonEmpty st1.store = true ∧
    (handleRequest env1 st1 (Request.putTask oid1 { title := some "" })).2.store =
      [{ id := oid1, title := "", completed := false, createdAt := 500 }] ∧
    storeTitlesNonEmpty
      (handleRequest env1 st1 (Request.putTask oid1 { title := some "" })).2.store = false := by
  refine ⟨by decide, by decide, by decide⟩

/-- Claim C1 (amended): every task persisted by `createTask` has a non-empty
title, and the invariant is preserved by every request except a `PUT` whose
body sets `title` to a blank (empty-after-trimming) string — such a `PUT`
can leave a persisted task with an empty title. -/
theorem title_invariant_preserved (env : Env) (s : ServerState) (r : Request)
    (hs : storeTitlesNonEmpty s.store = true) (hr : patchKeepsTitle r) :
    storeTitlesNonEmpty (handleRequest env s r).2.store = true := by
  cases r with
  | getHealth => simpa [handleRequest, dispatch] using hs
  | getMetrics => simpa [handleRequest, dispatch] using hs
  | getTasks => simpa [handleRequest, dispatch] using hs
  | other => simpa [handleRequest, dispatch] using hs
  | postTask title =>
      by_cases ht : titleTruthy title
      · by_cases htr : trimString (title.getD "") = ""
        · simpa [handleRequest, dispatch, taskCreate, ht, htr] using hs
        · simp only [handleRequest, dispatch, taskCreate, ht, htr, if_true, if_false]
          simp only [storeTitlesNonEmpty, List.all_append, List.all_cons, List.all_nil,
            Bool.and_eq_true] at hs ⊢
          exact ⟨hs, by simpa using htr, trivial⟩
      · simpa [handleRequest, dispatch, ht] using hs
  | putTask id p =>
      by_cases hid : isValidObjectId id
      · cases hf : findById s.store id with
        | none => simpa [handleRequest, dispatch, hid, hf] using hs
        | some t =>
            simp only [handleRequest, dispatch, hid, if_true, hf]
            exact storeTitlesNonEmpty_updateById id p hr s.store hs
      · simpa [handleRequest, dispatch, hid] using hs
  | deleteTask id =>
      by_cases hid : isValidObjectId id
      · cases hf : findById s.store id with
        | none => simpa [handleRequest, dispatch, hid, hf] using hs
        | some t =>
            simp only [handleRequest, dispatch, hid, if_true, hf]
            exact storeTitlesNonEmpty_deleteById id s.store hs
      · simpa [handleRequest, dispatch, hid] using hs

/-- Witness for C1 (amended): a `PUT` toggling `completed` on the one-task
state keeps every persisted title non-empty. -/
theorem title_invariant_preserved_witness :
    storeTitlesNonEmpty
      (handleRequest env1 st1 (Request.putTask oid1 { completed := some true })).2.store = true :=
  title_invariant_preserved env1 st1 (Request.putTask oid1 { completed := some true })
    (by decide) (by intro v hv; cases hv)

/-- Counterexample to C2 as stated: a `POST` without a title is answered
with 400, and an unmatched route with 404, yet `errorCount` stays at zero in
both cases — only the `catch` paths (500 responses) increment it. -/
theorem error_counter_not_incremented_cex :
    (handleRequest env1 st0 (Request.postTask none)).1.status = 400 ∧
    (handleRequest env1 st0 (Request.postTask none)).2.errorCount = 0 ∧
    (handleRequest env1 st0 Request.other).1.status = 404 ∧
    (handleRequest env1 st0 Request.other).2.errorCount = 0 :=
  ⟨rfl, rfl, rfl, rfl⟩

/-- Claim C2 (amended): every request increments `requestCount` exactly once
before dispatch; `errorCount` is incremented exactly when the response is a
500 (a storage, validation or cast failure reaching a `catch` block) — 400
and 404 responses leave it unchanged. -/
theorem counters_requests_and_errors (env : Env) (s : ServerState) (r : Request) :
    (handleRequest env s r).2.requestCount = s.requestCount + 1 ∧
    (handleRequest env s r).2.errorCount =
      s.errorCount + (if (handleRequest env s r).1.status = 500 then 1 else 0) := by
  cases r with
  | getHealth => simp [handleRequest, dispatch]
  | getMetrics => simp [handleRequest, dispatch]
  | getTasks => simp [handleRequest, dispatch]
  | other => simp [handleRequest, dispatch]
  | postTask title =>
      by_cases ht : titleTruthy title
      · by_cases htr : trimString (title.getD "") = ""
        · simp [handleRequest, dispatch, taskCreate, ht, htr]
        · simp [handleRequest, dispatch, taskCreate, ht, htr]
      · simp [handleRequest, dispatch, ht]
  | putTask id p =>
      by_cases hid : isValidObjectId id
      · cases hf : findById s.store id with
        | none => simp [handleRequest, dispatch, hid, hf]
        | some t => simp [handleRequest, dispatch, hid, hf]
      · simp [handleRequest, dispatch, hid]
  | deleteTask id =>
      by_cases hid : isValidObjectId id
      · cases hf : findById s.store id with
        | none => simp [handleRequest, dispatch, hid, hf]
        | some t => simp [handleRequest, dispatch, hid, hf]
      · simp [handleRequest, dispatch, hid]

set_option maxHeartbeats 2000000 in
/-- Counterexample to C4 as stated: the sample lines of the rendered
exposition text name the fourth metric `nodejs_process_memory_bytes`, not
`process_memory_bytes`. -/
theorem metrics_fourth_name_cex :
    metricNames (metricsText 5 2 "1.5" "12345") =
      ["http_requests_total", "http_errors_total", "app_uptime_seconds",
        "nodejs_process_memory_bytes"] ∧
    metricNames (metricsText 5 2 "1.5" "12345") ≠
      ["http_requests_total", "http_errors_total", "app_uptime_seconds",
        "process_memory_bytes"] := by
  refine ⟨by decide, by decide⟩

/-- Claim C4 (amended): `GET /metrics` answers 200 with a plain-text body
rendering exactly four metrics, each preceded by a HELP comment and a TYPE
comment: `http_requests_total` (counter), `http_errors_total` (counter),
`app_uptime_seconds` (gauge) and `nodejs_process_memory_bytes` (gauge); the
request-count figure reflects the middleware increment for the `/metrics`
request itself. -/
theorem metrics_renders_four_metrics (env : Env) (s : ServerState) :
    (handleRequest env s Request.getMetrics).1 =
      ⟨200, Body.text (
        renderMetric "http_requests_total" "Total HTTP requests" "counter"
            (Nat.repr (s.requestCount + 1)) ++ "\n" ++
        renderMetric "http_errors_total" "Total HTTP errors" "counter"
            (Nat.repr s.errorCount) ++ "\n" ++
        renderMetric "app_uptime_seconds" "Application uptime" "gauge"
            env.uptimeStr ++ "\n" ++
        renderMetric "nodejs_process_memory_bytes" "Process memory usage" "gauge"
            env.heapUsedStr)⟩ := by
  have hmerge : ∀ a b x : String, a ++ (b ++ x) = (a ++ b) ++ x :=
    fun a b x => (String.append_assoc a b x).symm
  have m2 : ∀ x : String,
      ("\n\n" : String) ++
        ("# HELP http_errors_total Total HTTP errors\n# TYPE http_errors_total counter\nhttp_errors_total " ++ x) =
      "\n\n# HELP http_errors_total Total HTTP errors\n# TYPE http_errors_total counter\nhttp_errors_total " ++ x := by
    intro x
    rw [hmerge]
    simp
  have m3 : ∀ x : String,
      ("\n\n" : String) ++
        ("# HELP app_uptime_seconds Application uptime\n# TYPE app_uptime_seconds gauge\napp_uptime_seconds " ++ x) =
      "\n\n# HELP app_uptime_seconds Application uptime\n# TYPE app_uptime_seconds gauge\napp_uptime_seconds " ++ x := by
    intro x
    rw [hmerge]
    simp
  have m4 : ∀ x : String,
      ("\n\n" : String) ++
        ("# HELP nodejs_process_memory_bytes Process memory usage\n# TYPE nodejs_process_memory_bytes gauge\nnodejs_process_memory_bytes " ++ x) =
      "\n\n# HELP nodejs_process_memory_bytes Process memory usage\n# TYPE nodejs_process_memory_bytes gauge\nnodejs_process_memory_bytes " ++ x := by
    intro x
    rw [hmerge]
    simp
  show (⟨200, Body.text (metricsText (s.requestCount + 1) s.errorCount
    env.uptimeStr env.heapUsedStr)⟩ : Response) = _
  have key : metricsText (s.requestCount + 1) s.errorCount env.uptimeStr env.heapUsedStr =
      renderMetric "http_requests_total" "Total HTTP requests" "counter"
          (Nat.repr (s.requestCount + 1)) ++ "\n" ++
      renderMetric "http_errors_total" "Total HTTP errors" "counter"
          (Nat.repr s.errorCount) ++ "\n" ++
      renderMetric "app_uptime_seconds" "Application uptime" "gauge"
          env.uptimeStr ++ "\n" ++
      renderMetric "nodejs_process_memory_bytes" "Process memory usage" "gauge"
          env.heapUsedStr := by
    simp [metricsText, renderMetric, String.append_assoc, m2, m3, m4]
  rw [key]

/-- Claim C5: `GET /api/tasks` answers 200 with body `tasks, total`, where
`tasks` is the stored collection ordered by `createdAt` descending (a
permutation of the store, sorted for `createdAtGE`) and `total` is its
length; on an empty store the body is the empty list with total 0. -/
theorem list_tasks_sorted (env : Env) (s : ServerState) :
    (handleRequest env s Request.getTasks).1.status = 200 ∧
    (handleRequest env s Request.getTasks).1.body =
      Body.taskList (sortByCreatedAtDesc s.store) (sortByCreatedAtDesc s.store).length ∧
    List.Perm (sortByCreatedAtDesc s.store) s.store ∧
    (sortByCreatedAtDesc s.store).Sorted createdAtGE ∧
    (s.store = [] → (handleRequest env s Request.getTasks).1.body = Body.taskList [] 0) := by
  refine ⟨rfl, rfl, List.perm_insertionSort createdAtGE s.store,
    List.sorted_insertionSort createdAtGE s.store, ?_⟩
  intro h
  simp [handleRequest, dispatch, sortByCreatedAtDesc, h]

/-- Witness for C5's empty-store reading at the pristine state. -/
theorem list_tasks_sorted_witness :
    (handleRequest env1 st0 Request.getTasks).1.body = Body.taskList [] 0 :=
  (list_tasks_sorted env1 st0).2.2.2.2 rfl

/-- The document found by id is patched in place by `updateById`. -/
theorem findById_updateById (id : String) (p : Patch) :
    ∀ l : Store, ∀ t, findById l id = some t → applyPatch p t ∈ updateById id p l := by
  intro l
  induction l with
  | nil => intro t ht; simp [findById] at ht
  | cons u rest ih =>
      intro t ht
      cases hid : (u.id == id) with
      | true =>
          simp [findById, hid] at ht
          subst ht
          simp [updateById, hid]
      | false =>
          simp [findById, hid] at ht
          simp only [updateById, hid]
          simp only [Bool.false_eq_true, if_false]
          exact List.mem_cons_of_mem u (ih t ht)

/-- Claim C6: for a syntactically valid id, `PUT /api/tasks/:id` answers 404
with `error: Task not found` and leaves the store unchanged when no task has
that id; otherwise it answers 200 with the patched record, which is
persisted in place of the old one. -/
theorem put_task_updates (env : Env) (s : ServerState) (id : String) (p : Patch)
    (hid : isValidObjectId id = true) :
    (findById s.store id = none →
      (handleRequest env s (Request.putTask id p)).1 = ⟨404, Body.err "Task not found"⟩ ∧
      (handleRequest env s (Request.putTask id p)).2.store = s.store) ∧
    (∀ t, findById s.store id = some t →
      (handleRequest env s (Request.putTask id p)).1 = ⟨200, Body.taskBody (applyPatch p t)⟩ ∧
      (handleRequest env s (Request.putTask id p)).2.store = updateById id p s.store ∧
      applyPatch p t ∈ (handleRequest env s (Request.putTask id p)).2.store) := by
  constructor
  · intro hf
    constructor <;> simp [handleRequest, dispatch, hid, hf]
  · intro t hf
    refine ⟨by simp [handleRequest, dispatch, hid, hf],
      by simp [handleRequest, dispatch, hid, hf], ?_⟩
    have hmem := findById_updateById id p s.store t hf
    simpa [handleRequest, dispatch, hid, hf] using hmem

/-- Witness for C6 at the one-task state: completing `task1` answers 200
with the patched record. -/
theorem put_task_updates_witness :
    (handleRequest env1 st1 (Request.putTask oid1 { completed := some true })).1 =
      ⟨200, Body.taskBody (applyPatch { completed := some true } task1)⟩ :=
  ((put_task_updates env1 st1 oid1 { completed := some true } (by decide)).2 task1
    (by decide)).1

/-- After `deleteById`, no remaining document carries the deleted id,
provided the stored ids were pairwise distinct. -/
theorem deleteById_id_not_mem (id : String) :
    ∀ l : Store, (l.map Task.id).Nodup → ∀ u ∈ deleteById id l, u.id ≠ id := by
  intro l
  induction l with
  | nil => intro _ u hu; simp [deleteById] at hu
  | cons t rest ih =>
      intro hnd u hu
      rw [List.map_cons, List.nodup_cons] at hnd
      cases hid : (t.id == id) with
      | true =>
          simp [deleteById, hid] at hu
          have hteq : t.id = id := by simpa using hid
          intro he
          exact hnd.1 (hteq ▸ he ▸ List.mem_map_of_mem Task.id hu)
      | false =>
          simp [deleteById, hid] at hu
          rcases hu with hu | hu
          · subst hu
            simpa using hid
          · exact ih hnd.2 u hu

/-- Claim C9: for a syntactically valid id over a store with pairwise
distinct ids, `DELETE /api/tasks/:id` answers 404 with `error: Task not
found` and leaves the store unchanged when no task has that id; otherwise it
answers 200 with `message: Task deleted` and removes the record, so no task
with that id appears in subsequent list results. -/
theorem delete_task_removes (env : Env) (s : ServerState) (id : String)
    (hid : isValidObjectId id = true) (hnd : (s.store.map Task.id).Nodup) :
    (findById s.store id = none →
      (handleRequest env s (Request.deleteTask id)).1 = ⟨404, Body.err "Task not found"⟩ ∧
      (handleRequest env s (Request.deleteTask id)).2.store = s.store) ∧
    (∀ t, findById s.store id = some t →
      (handleRequest env s (Request.deleteTask id)).1 = ⟨200, Body.msg "Task deleted"⟩ ∧
      (handleRequest env s (Request.deleteTask id)).2.store = deleteById id s.store ∧
      ∀ u ∈ sortByCreatedAtDesc (handleRequest env s (Request.deleteTask id)).2.store,
        u.id ≠ id) := by
  constructor
  · intro hf
    constructor <;> simp [handleRequest, dispatch, hid, hf]
  · intro t hf
    refine ⟨by simp [handleRequest, dispatch, hid, hf],
      by simp [handleRequest, dispatch, hid, hf], ?_⟩
    intro u hu
    have hu' : u ∈ sortByCreatedAtDesc (deleteById id s.store) := by
      simpa [handleRequest, dispatch, hid, hf] using hu
    have : u ∈ deleteById id s.store := by
      simpa [sortByCreatedAtDesc, List.mem_insertionSort] using hu'
    exact deleteById_id_not_mem id s.store hnd u this

/-- Witness for C9 at the one-task state: deleting `task1` answers 200 and
empties the store. -/
theorem delete_task_removes_witness :
    (handleRequest env1 st1 (Request.deleteTask oid1)).1 = ⟨200, Body.msg "Task deleted"⟩ ∧
    (handleRequest env1 st1 (Request.deleteTask oid1)).2.store = deleteById oid1 st1.store :=
  ⟨((delete_task_removes env1 st1 oid1 (by decide) (by decide)).2 task1 (by decide)).1,
    ((delete_task_removes env1 st1 oid1 (by decide) (by decide)).2 task1 (by decide)).2.1⟩

end TaskMaster
